import Mathlib

/-!
# Verification of the `python-video-converter` option/argument engine

A shallow embedding, in Lean 4, of the option-validation and
argument-synthesis code of the repository (Python 2 sources
`converter/avcodecs.py` and `converter/__init__.py`), together with
theorems settling the specification claims about it.

Modelling conventions:

* Python values that flow through the option dictionaries are modelled by the
  inductive `PyValue` (ints, strings, bools, `None`, and nested dicts).
  Dictionaries are association lists `List (String × PyValue)`; a Python dict
  never holds a duplicate key, which theorems assume via `PyDict.NodupKeys`
  where it matters.
* Python exceptions are modelled with `Except PyErr`.
* The sources are Python 2: `/` on two ints is *floor* division
  (`Int.fdiv`), `print` is a statement (a side effect we drop), and a method
  defined without a `self` parameter raises `TypeError` when called through
  an instance (the bound method passes the instance as the first positional
  argument).
* Python `float` arithmetic is modelled by exact rational arithmetic over
  `ℚ`; `int(...)` applied to such a value truncates toward zero.  Every
  concrete input used in a theorem below was chosen so that the real IEEE
  double computation is exact (powers of two), hence agrees with `ℚ`.
-/

/-- A Python runtime value as it appears in the option dictionaries. -/
inductive PyValue where
  | int (n : Int)
  | str (s : String)
  | bool (b : Bool)
  | none
  | dict (d : List (String × PyValue))

/-- Shorthand for a string token in an argument list. -/
def S (s : String) : PyValue := PyValue.str s

/-- A Python dictionary with string keys, as an association list. -/
abbrev PyDict := List (String × PyValue)

/-- The scalar kinds that appear in `encoder_options` schemas: the Python
type constructors `int`, `str` and `bool` used for coercion. -/
inductive PyType where
  | int
  | str
  | bool
deriving DecidableEq, Repr

/-- The Python exceptions raised by the modelled code. -/
inductive PyErr where
  | valueError (msg : String)
  | typeError (msg : String)
  | keyError (key : Int)
  | nameError (name : String)
  | converterError (msg : String)
  | assertionError
deriving DecidableEq, Repr

/-- Decimal digits of `n`, most significant first, by repeated division;
`fuel` bounds the recursion (any `fuel ≥ n` is enough). Structural recursion
on `fuel` keeps the function kernel-reducible. -/
def natDigits : Nat → Nat → List Char
  | 0, _ => []
  | fuel + 1, n =>
    if n = 0 then [] else natDigits fuel (n / 10) ++ [Char.ofNat (48 + n % 10)]

/-- Decimal rendering of a natural number (Python `str` of a non-negative
int). -/
def natRepr (n : Nat) : String :=
  if n = 0 then "0" else String.mk (natDigits n n)

/-- Python `str` of an int. -/
def intRepr (n : Int) : String :=
  if n < 0 then "-" ++ natRepr (-n).toNat else natRepr n.toNat

/-- Python `repr` of a value (used by `str` on dicts; `\x7b`/`\x7d` are the
brace characters). -/
def pyRepr : PyValue → String
  | .int n => intRepr n
  | .str s => "\x27" ++ s ++ "\x27"
  | .bool b => if b then "True" else "False"
  | .none => "None"
  | .dict d => "\x7b" ++ pyReprEntries d ++ "\x7d"
where
  pyReprEntries : List (String × PyValue) → String
  | [] => ""
  | [(k, v)] => "\x27" ++ k ++ "\x27: " ++ pyRepr v
  | (k, v) :: rest => "\x27" ++ k ++ "\x27: " ++ pyRepr v ++ ", " ++ pyReprEntries rest

/-- Python `str(v)`. -/
def pyStrOf : PyValue → String
  | .int n => intRepr n
  | .str s => s
  | .bool b => if b then "True" else "False"
  | .none => "None"
  | .dict d => pyRepr (.dict d)

/-- Python truthiness of a value. -/
def truthy : PyValue → Bool
  | .int n => n != 0
  | .str s => !s.isEmpty
  | .bool b => b
  | .none => false
  | .dict d => !d.isEmpty

/-- Digit-string value of a character list: `some` iff non-empty and all
decimal digits (the accepted bodies of Python 2 `int(<str>)`). -/
def digitsVal (l : List Char) : Option Nat :=
  if l.isEmpty then Option.none
  else l.foldl (fun acc c =>
    acc.bind fun a => if c.isDigit then some (10 * a + (c.toNat - 48)) else Option.none)
    (some 0)

/-- Python 2 `int(<str>)`: strips surrounding whitespace, allows one leading
sign, then requires a non-empty run of decimal digits; raises (here: `none`)
otherwise. -/
def strToInt (s : String) : Option Int :=
  let cs := ((s.data.dropWhile Char.isWhitespace).reverse.dropWhile Char.isWhitespace).reverse
  match cs with
  | '-' :: rest => (digitsVal rest).map (fun n => -(n : Int))
  | '+' :: rest => (digitsVal rest).map (fun n => (n : Int))
  | rest => (digitsVal rest).map (fun n => (n : Int))

/-- Applying a schema type constructor to a raw value, Python 2 semantics:
`int()` succeeds on ints, bools and digit strings (TypeError/ValueError
otherwise); `str()` and `bool()` always succeed.  `none` models a raised
(and, in `safe_options`, silently swallowed) exception. -/
def coerce : PyType → PyValue → Option PyValue
  | .int, .int n => some (.int n)
  | .int, .bool b => some (.int (if b then 1 else 0))
  | .int, .str s => (strToInt s).map .int
  | .int, .none => Option.none
  | .int, .dict _ => Option.none
  | .str, v => some (.str (pyStrOf v))
  | .bool, v => some (.bool (truthy v))

/-- Does a value have the given scalar kind (is it an instance of the
schema-declared Python type)? -/
def hasType : PyValue → PyType → Bool
  | .int _, .int => true
  | .str _, .str => true
  | .bool _, .bool => true
  | _, _ => false

namespace PyDict

/-- Key lookup (Python `d[k]` / `k in d`); first match wins. -/
def lookup (d : PyDict) (k : String) : Option PyValue :=
  match d with
  | [] => Option.none
  | (k', v) :: rest => if k' = k then some v else lookup rest k

/-- Python `del d[k]`. -/
def eraseKey (d : PyDict) (k : String) : PyDict :=
  d.filter (fun kv => kv.1 ≠ k)

/-- Python `d[k] = v`: replace in place if present, else append. -/
def set (d : PyDict) (k : String) (v : PyValue) : PyDict :=
  if (lookup d k).isSome then
    d.map (fun kv => if kv.1 = k then (k, v) else kv)
  else d ++ [(k, v)]

/-- A real Python dict never repeats a key. -/
def NodupKeys (d : PyDict) : Prop := (d.map Prod.fst).Nodup

instance (d : PyDict) : Decidable (NodupKeys d) := by
  unfold NodupKeys; infer_instance

end PyDict

/-- `BaseCodec.safe_options` (`avcodecs.py` lines 24–37): keep only the keys
present in `encoder_options`, coercing each kept value with the declared type
constructor and silently dropping the key when the coercion raises. -/
def safe_options (encoder_options : List (String × PyType)) (opts : PyDict) : PyDict :=
  opts.filterMap (fun kv =>
    (encoder_options.lookup kv.1).bind (fun typ =>
      (coerce typ kv.2).map (fun v => (kv.1, v))))

/-- `BaseCodec.parse_options` (lines 13–16): the codec-name guard shared by
every concrete codec; `opt['codec'] != self.codec_name` is string equality
(a non-string value compares unequal in Python 2 without raising). -/
def checkCodec (codec_name : String) (opt : PyDict) : Except PyErr Unit :=
  match opt.lookup "codec" with
  | some (.str s) => if s = codec_name then .ok () else .error (.valueError "invalid codec name")
  | some _ => .error (.valueError "invalid codec name")
  | Option.none => .error (.valueError "invalid codec name")

/-- The shared range-validation shape `if k in safe: if v < lo or v > hi:
del safe[k]` used for channels/bitrate/samplerate/fps.  The value under `k`
is always an `int` here (it was coerced by `safe_options`); a non-int value
is left untouched (unreachable). -/
def rangeFilter (safe : PyDict) (k : String) (lo hi : Int) : PyDict :=
  match safe.lookup k with
  | some (.int n) => if n < lo ∨ hi < n then safe.eraseKey k else safe
  | _ => safe

/-! ## Audio codecs (`avcodecs.py` lines 40–91, 456–533) -/

/-- `AudioCodec.encoder_options` (lines 53–58). -/
def audio_encoder_options : List (String × PyType) :=
  [("codec", .str), ("channels", .int), ("bitrate", .int), ("samplerate", .int)]

/-- A concrete `AudioCodec` subclass: its `codec_name`, engine codec name,
schema additions, and its `_codec_specific_produce_ffmpeg_list` override.
No audio codec overrides `_codec_specific_parse_options` (the base returns
`safe` unchanged), so that hook is not a field. -/
structure AudioDescr where
  codec_name : String
  ffmpeg_codec_name : String
  extra : List (String × PyType)
  specific : PyDict → List PyValue

/-- The sanitized-and-range-validated audio option set of
`AudioCodec.parse_options` (lines 63–78): `safe_options` followed by the
three delete-if-out-of-range checks. -/
def audioSafe (d : AudioDescr) (opt : PyDict) : PyDict :=
  rangeFilter
    (rangeFilter
      (rangeFilter (safe_options (audio_encoder_options ++ d.extra) opt)
        "channels" 1 12)
      "bitrate" 8 512)
    "samplerate" 1000 50000

/-- `if k in safe: optlist.extend([flag, str(safe[k])])`. -/
def audioTok (safe : PyDict) (k flag : String) : List PyValue :=
  match safe.lookup k with
  | some v => [S flag, S (pyStrOf v)]
  | Option.none => []

/-- `if 'bitrate' in safe: optlist.extend(['-ab', str(safe['bitrate']) + 'k'])`. -/
def audioTokK (safe : PyDict) (k flag : String) : List PyValue :=
  match safe.lookup k with
  | some v => [S flag, S (pyStrOf v ++ "k")]
  | Option.none => []

/-- The emitted fragment of `AudioCodec.parse_options` (lines 82–91):
`-acodec <engine name>`, then `-ac`/`-ab`/`-ar` for surviving keys, then
the codec-specific tokens. -/
def audioFragments (d : AudioDescr) (opt : PyDict) : List PyValue :=
  [S "-acodec", S d.ffmpeg_codec_name]
    ++ audioTok (audioSafe d opt) "channels" "-ac"
    ++ audioTokK (audioSafe d opt) "bitrate" "-ab"
    ++ audioTok (audioSafe d opt) "samplerate" "-ar"
    ++ d.specific (audioSafe d opt)

/-- `AudioCodec.parse_options` (lines 60–91): codec guard, sanitize, range
validation (out-of-range keys are deleted, not clamped), then the
`-acodec`, `-ac`, `-ab`, `-ar` fragments plus codec-specific tokens. -/
def audioParseOptions (d : AudioDescr) (opt : PyDict) : Except PyErr (List PyValue) := do
  let _ ← checkCodec d.codec_name opt
  .ok (audioFragments d opt)

/-- `VorbisCodec._codec_specific_produce_ffmpeg_list` (lines 469–473): note
the quality value is extended into the list *raw* (no `str(...)`). -/
def vorbisSpecific (safe : PyDict) : List PyValue :=
  match safe.lookup "quality" with
  | some v => [S "-qscale:a", v]
  | Option.none => []

def vorbisDescr : AudioDescr :=
  { codec_name := "vorbis", ffmpeg_codec_name := "libvorbis",
    extra := [("quality", .int)], specific := vorbisSpecific }

/-- `AacCodec._codec_specific_produce_ffmpeg_list` (lines 484–485). -/
def aacDescr : AudioDescr :=
  { codec_name := "aac", ffmpeg_codec_name := "aac",
    extra := [], specific := fun _ => [S "-strict", S "experimental"] }

def mp3Descr : AudioDescr :=
  { codec_name := "mp3", ffmpeg_codec_name := "libmp3lame",
    extra := [], specific := fun _ => [] }

def mp2Descr : AudioDescr :=
  { codec_name := "mp2", ffmpeg_codec_name := "mp2",
    extra := [], specific := fun _ => [] }

def fdkAacDescr : AudioDescr :=
  { codec_name := "libfdk_aac", ffmpeg_codec_name := "libfdk_aac",
    extra := [], specific := fun _ => [] }

def ac3Descr : AudioDescr :=
  { codec_name := "ac3", ffmpeg_codec_name := "ac3",
    extra := [], specific := fun _ => [] }

def dtsDescr : AudioDescr :=
  { codec_name := "dts", ffmpeg_codec_name := "dts",
    extra := [], specific := fun _ => [] }

def flacDescr : AudioDescr :=
  { codec_name := "flac", ffmpeg_codec_name := "flac",
    extra := [], specific := fun _ => [] }

/-- The concrete `AudioCodec` subclasses of `audio_codec_list` (lines
715–718), in source order (the null and copy entries are separate
`BaseCodec` overrides, modelled below). -/
def audioDescrList : List AudioDescr :=
  [vorbisDescr, aacDescr, mp3Descr, mp2Descr, fdkAacDescr, ac3Descr, dtsDescr, flacDescr]

/-! ## Subtitle codecs (lines 94–137, 675–712) -/

/-- `SubtitleCodec.encoder_options` (lines 106–111). -/
def subtitle_encoder_options : List (String × PyType) :=
  [("codec", .str), ("language", .str), ("forced", .int), ("default", .int)]

/-- A concrete `SubtitleCodec` subclass.  None of the five concrete subtitle
codecs overrides either `_codec_specific_*` hook, so the base behaviours
(identity / empty list) are baked in. -/
structure SubDescr where
  codec_name : String
  ffmpeg_codec_name : String

/-- `SubtitleCodec.parse_options` (lines 113–137): guard, sanitize, validate
`forced`/`default` to {0,1} and `language` to length ≤ 3 — and then emit
only `['-scodec', <engine name>]`; the sanitized options contribute no
token. -/
def subtitleParseOptions (d : SubDescr) (opt : PyDict) : Except PyErr (List PyValue) := do
  let _ ← checkCodec d.codec_name opt
  let safe := safe_options subtitle_encoder_options opt
  let safe := rangeFilter safe "forced" 0 1
  let safe := rangeFilter safe "default" 0 1
  let safe := match safe.lookup "language" with
    | some (.str l) => if 3 < l.length then safe.eraseKey "language" else safe
    | _ => safe
  let optlist := [S "-scodec", S d.ffmpeg_codec_name]
  -- base `_codec_specific_produce_ffmpeg_list` returns [] and is not
  -- overridden by any of the concrete subtitle codecs
  let _ := safe
  .ok optlist

def movTextDescr : SubDescr := { codec_name := "mov_text", ffmpeg_codec_name := "mov_text" }
def ssaDescr : SubDescr := { codec_name := "ass", ffmpeg_codec_name := "ass" }
def subRipDescr : SubDescr := { codec_name := "subrip", ffmpeg_codec_name := "subrip" }
def dvbSubDescr : SubDescr := { codec_name := "dvbsub", ffmpeg_codec_name := "dvbsub" }
def dvdSubDescr : SubDescr := { codec_name := "dvdsub", ffmpeg_codec_name := "dvdsub" }

/-- The concrete `SubtitleCodec` subclasses of `subtitle_codec_list` (lines
726–729), in source order. -/
def subDescrList : List SubDescr :=
  [movTextDescr, ssaDescr, subRipDescr, dvdSubDescr, dvbSubDescr]

/-! ## Geometry resolver (`VideoCodec._aspect_corrections`, lines 204–300) -/

/-- Python 2 `int(...)` on a (here: exact-rational-modelled) float value:
truncation toward zero. -/
def pyInt (q : ℚ) : Int := q.num.tdiv q.den

/-- The crop filter string `'crop={}:{}:{}:0'.format(w, h, off)` (the `%`
variant on line 291 renders identically). -/
def cropStr (mw mh off : Int) : String :=
  "crop=" ++ intRepr mw ++ ":" ++ intRepr mh ++ ":" ++ intRepr off ++ ":0"

/-- The recognized sizing policies (line 208). -/
def policyNames : List String :=
  ["Fit", "Fill", "Stretch", "Keep", "ShrinkToFit", "ShrinkToFill"]

/-- The policy dispatch of `_aspect_corrections` (lines 216–300), reached
once all four dimensions are present and non-zero and the policy is
recognized.  Python 2 pitfalls modelled exactly:

* `float(sh/sw)` floor-divides the two *ints* first (`Int.fdiv`) and only
  then converts, and it is compared against `float(max_height)` — not
  against a ratio of the maxima;
* `int(x * factor)` truncates toward zero (`pyInt`);
* `(h0 - max_height) / 2` is int floor division;
* in the `ShrinkToFill` non-shrinking branch the source returns
  `int(sw*factor)` where `factor` was never assigned on that path:
  `NameError`. -/
def aspectCore (sw sh mw mh : Int) (sizing_policy : String) :
    Except PyErr (Option Int × Option Int × Option String) :=
  let ratio : ℚ := ((Int.fdiv sh sw : Int) : ℚ)
  if sizing_policy = "Fit" then
    if ratio = (mh : ℚ) then .ok (some mw, some mh, Option.none)
    else if ratio < (mh : ℚ) then
      let factor : ℚ := (mh : ℚ) / (sh : ℚ)
      .ok (some (pyInt ((sw : ℚ) * factor)), some mh, Option.none)
    else
      let factor : ℚ := (mw : ℚ) / (sw : ℚ)
      .ok (some mw, some (pyInt ((sh : ℚ) * factor)), Option.none)
  else if sizing_policy = "Fill" then
    if ratio = (mh : ℚ) then .ok (some mw, some mh, Option.none)
    else if ratio < (mh : ℚ) then
      let factor : ℚ := (mw : ℚ) / (sw : ℚ)
      let h0 := pyInt ((sh : ℚ) * factor)
      let dh := Int.fdiv (h0 - mh) 2
      .ok (some mw, some h0, some (cropStr mw mh dh))
    else
      let factor : ℚ := (mh : ℚ) / (sh : ℚ)
      let w0 := pyInt ((sw : ℚ) * factor)
      let dw := Int.fdiv (w0 - mw) 2
      .ok (some w0, some mh, some (cropStr mw mh dw))
  else if sizing_policy = "Stretch" then
    .ok (some mw, some mh, Option.none)
  else if sizing_policy = "Keep" then
    .ok (some sw, some sh, Option.none)
  else if sizing_policy = "ShrinkToFit" then
    if mh < sh ∨ mw < sw then
      if ratio = (mh : ℚ) then .ok (some mw, some mh, Option.none)
      else if ratio < (mh : ℚ) then
        let factor : ℚ := (mh : ℚ) / (sh : ℚ)
        .ok (some (pyInt ((sw : ℚ) * factor)), some mh, Option.none)
      else
        let factor : ℚ := (mw : ℚ) / (sw : ℚ)
        .ok (some mw, some (pyInt ((sh : ℚ) * factor)), Option.none)
    else .ok (some sw, some sh, Option.none)
  else if sizing_policy = "ShrinkToFill" then
    if sh < mh ∨ sw < mw then
      if ratio = (mh : ℚ) then .ok (some mw, some mh, Option.none)
      else if ratio < (mh : ℚ) then
        let factor : ℚ := (mw : ℚ) / (sw : ℚ)
        let h0 := pyInt ((sh : ℚ) * factor)
        let dh := Int.fdiv (h0 - mh) 2
        .ok (some mw, some h0, some (cropStr mw mh dh))
      else
        let factor : ℚ := (mh : ℚ) / (sh : ℚ)
        let w0 := pyInt ((sw : ℚ) * factor)
        let dw := Int.fdiv (w0 - mw) 2
        .ok (some w0, some mh, some (cropStr mw mh dw))
    else
      .error (.nameError "factor")
  else
    -- `assert False, sizing_policy` (line 300); unreachable for a
    -- recognized policy
    .error .assertionError

/-- `VideoCodec._aspect_corrections` (lines 204–300).  A missing (`None`) or
zero dimension is falsy, so `if not max_width or ...` passes the source
dimensions through untouched; an unrecognized policy is only logged
(`print`), not raised, and also passes through. -/
def aspect_corrections (sw sh max_width max_height : Option Int)
    (sizing_policy : String) : Except PyErr (Option Int × Option Int × Option String) :=
  match sw, sh, max_width, max_height with
  | some sw', some sh', some mw', some mh' =>
    if mw' = 0 ∨ mh' = 0 ∨ sw' = 0 ∨ sh' = 0 then .ok (sw, sh, Option.none)
    else if ¬ policyNames.contains sizing_policy then .ok (sw, sh, Option.none)
    else aspectCore sw' sh' mw' mh' sizing_policy
  | _, _, _, _ => .ok (sw, sh, Option.none)

/-! ## Video codecs (lines 140–391, 536–671) -/

/-- `VideoCodec.encoder_options` (lines 169–181). -/
def video_encoder_options : List (String × PyType) :=
  [("codec", .str), ("bitrate", .int), ("fps", .int), ("max_width", .int),
   ("max_height", .int), ("sizing_policy", .str), ("src_width", .int),
   ("src_height", .int), ("src_rotate", .int), ("filters", .str),
   ("autorotate", .bool)]

/-- `VideoCodec._autorotate` (lines 183–189): the transpose-filter table,
total only on the keys 90, 180 and 270; any other key raises `KeyError`. -/
def autorotate_filters (r : Int) : Except PyErr String :=
  if r = 90 then .ok "transpose=1"
  else if r = 180 then .ok "transpose=2,transpose=2"
  else if r = 270 then .ok "transpose=2"
  else .error (.keyError r)

/-- Python `token == '-vf'` (a non-string token compares unequal without
raising). -/
def isVfToken : PyValue → Bool
  | .str s => s = "-vf"
  | _ => false

/-- `VideoCodec._extend_vf` (lines 192–199): append to the value following
the first `-vf` token, or add a fresh `-vf <value>` pair.  (The
out-of-range `optlist[idx+1]` case cannot occur: tokens are always emitted
in pairs.) -/
def extendVf : List PyValue → String → List PyValue
  | [], value => [S "-vf", S value]
  | x :: rest, value =>
    if isVfToken x then
      match rest with
      | y :: rest2 => x :: S (pyStrOf y ++ "," ++ value) :: rest2
      | [] => [x, S value]
    else x :: extendVf rest value

/-- The body of `_div_by_2` (lines 201–202): round an odd value up to the
next even one.  Note the source defines this instance method *without* a
`self` parameter. -/
def div_by_2 (d : Int) : Int := if d % 2 ≠ 0 then d + 1 else d

/-- The call `w = self._div_by_2(w)` (lines 342–343).  Because `_div_by_2`
is declared without a `self` parameter, the Python 2 bound-method call
passes two arguments (the instance and `w`) to a one-parameter function and
raises `TypeError` before the body ever runs — on every call. -/
def div_by_2_call (_w : Option Int) : Except PyErr (Option Int) :=
  .error (.typeError "_div_by_2() takes exactly 1 argument (2 given)")

/-- The `max_width`/`max_height` validation of `VideoCodec.parse_options`
(lines 317–331): absent → `None`; out of `[16, hi]` → `None`; odd → `+1`. -/
def dimCheck (v : Option PyValue) (hi : Int) : Option Int :=
  match v with
  | some (.int n) => if n < 16 ∨ hi < n then Option.none
                     else if n % 2 ≠ 0 then some (n + 1) else some n
  | _ => Option.none

/-- `safe.get(k, None)` for the source-dimension keys (lines 333–334); the
value, when present, was coerced to an int by `safe_options`. -/
def getIntOpt (safe : PyDict) (k : String) : Option Int :=
  match safe.lookup k with
  | some (.int n) => some n
  | _ => Option.none

def optIntToPy : Option Int → PyValue
  | some n => .int n
  | Option.none => .none

def optStrToPy : Option String → PyValue
  | some s => .str s
  | Option.none => .none

/-- A concrete `VideoCodec` subclass: name, engine name, schema additions,
and the two `_codec_specific_*` hooks. -/
structure VideoDescr where
  codec_name : String
  ffmpeg_codec_name : String
  extra : List (String × PyType)
  specific_opts : PyDict → PyDict
  specific_list : PyDict → List PyValue

/-- `VideoCodec.parse_options` (lines 302–391).  Everything after the
`self._div_by_2(w)` call on line 342 is dead in real execution (that call
always raises `TypeError`, see `div_by_2_call`), but is modelled faithfully
regardless.  The `['-pix_fmt', 'yuv420p']` assignment on line 368 is
immediately overwritten on line 370 in the source and therefore never
contributes a token. -/
def videoParseOptions (d : VideoDescr) (opt : PyDict) : Except PyErr (List PyValue) := do
  let _ ← checkCodec d.codec_name opt
  let safe := safe_options (video_encoder_options ++ d.extra) opt
  let safe := rangeFilter safe "fps" 1 120
  let safe := rangeFilter safe "bitrate" 16 15000
  let w := dimCheck (safe.lookup "max_width") 4000
  let h := dimCheck (safe.lookup "max_height") 3000
  let sw := getIntOpt safe "src_width"
  let sh := getIntOpt safe "src_height"
  let sizing_policy :=
    match safe.lookup "sizing_policy" with
    | some (.str s) => if policyNames.contains s then s else "Keep"
    | _ => "Keep"
  let r ← aspect_corrections sw sh w h sizing_policy
  let (w, h, filters) := r
  let w ← div_by_2_call w
  let h ← div_by_2_call h
  let safe := safe.set "max_width" (optIntToPy w)
  let safe := safe.set "max_height" (optIntToPy h)
  let safe := safe.set "aspect_filters" (optStrToPy filters)
  -- lines 350–355: swap width and height on a vertical rotation
  let doSwap :=
    (match safe.lookup "autorotate" with
     | some v => truthy v
     | Option.none => false) &&
    (match safe.lookup "src_rotate" with
     | some (.int n) => n == 90 || n == 270
     | some _ => false
     | Option.none => false)
  let (w, h, safe) :=
    if doSwap then (h, w, (safe.set "max_width" (optIntToPy h)).set "max_height" (optIntToPy w))
    else (w, h, safe)
  let safe :=
    match w, h with
    | some wv, some hv =>
      if wv ≠ 0 ∧ hv ≠ 0 then safe.set "aspect" (.str (intRepr wv ++ ":" ++ intRepr hv))
      else safe
    | _, _ => safe
  let safe := d.specific_opts safe
  let filters :=
    match safe.lookup "aspect_filters" with
    | some (.str s) => some s
    | _ => Option.none
  let optlist := [S "-vcodec", S d.ffmpeg_codec_name]
  let optlist := optlist ++ (match safe.lookup "fps" with
    | some v => [S "-r", S (pyStrOf v)]
    | Option.none => [])
  let optlist := optlist ++ (match safe.lookup "bitrate" with
    | some v => [S "-vb", S (pyStrOf v ++ "k")]
    | Option.none => [])
  let optlist := optlist ++ (match w, h with
    | some wv, some hv =>
      if wv ≠ 0 ∧ hv ≠ 0 then
        [S "-s", S (intRepr wv ++ "x" ++ intRepr hv)] ++
          (if (safe.lookup "aspect").isSome then
            [S "-aspect", S (intRepr wv ++ ":" ++ intRepr hv)]
          else [])
      else []
    | _, _ => [])
  let optlist :=
    match filters with
    | some f => if f.isEmpty then optlist else optlist ++ [S "-vf", S f]
    | Option.none => optlist
  let optlist ←
    if (match safe.lookup "autorotate" with
        | some v => truthy v
        | Option.none => false) &&
       (safe.lookup "src_rotate").isSome then
      match safe.lookup "src_rotate" with
      | some (.int n) => do
        let rf ← autorotate_filters n
        pure (extendVf optlist rf)
      | _ => pure optlist  -- unreachable: `src_rotate` was coerced to int
    else pure optlist
  let optlist :=
    match safe.lookup "filters" with
    | some v => extendVf optlist (pyStrOf v)
    | Option.none => optlist
  .ok (optlist ++ d.specific_list safe)

/-- `TheoraCodec._codec_specific_produce_ffmpeg_list` (lines 550–554): the
quality value is extended *raw* (no `str(...)`). -/
def theoraSpecific (safe : PyDict) : List PyValue :=
  match safe.lookup "quality" with
  | some v => [S "-qscale:v", v]
  | Option.none => []

/-- `H264Codec._codec_specific_produce_ffmpeg_list` (lines 579–598): note
`quality` (the crf value) is extended *raw*, while the last three options
are wrapped in `str(...)`. -/
def h264Specific (safe : PyDict) : List PyValue :=
  (match safe.lookup "preset" with
    | some v => [S "-preset", v] | Option.none => []) ++
  (match safe.lookup "quality" with
    | some v => [S "-crf", v] | Option.none => []) ++
  (match safe.lookup "profile" with
    | some v => [S "-profile", v] | Option.none => []) ++
  (match safe.lookup "tune" with
    | some v => [S "-tune", v] | Option.none => []) ++
  (match safe.lookup "level" with
    | some v => [S "-level", v] | Option.none => []) ++
  (match safe.lookup "max_reference_frames" with
    | some v => [S "-refs", S (pyStrOf v)] | Option.none => []) ++
  (match safe.lookup "max_rate" with
    | some v => [S "-maxrate", S (pyStrOf v)] | Option.none => []) ++
  (match safe.lookup "max_frames_between_keyframes" with
    | some v => [S "-g", S (pyStrOf v)] | Option.none => [])

/-- `MpegCodec._codec_specific_parse_options` (lines 642–655): prepend a
corrective `aspect=w:h` to the aspect filter chain. -/
def mpegSpecificOpts (safe : PyDict) : PyDict :=
  let w := (safe.lookup "max_width").getD .none
  let h := (safe.lookup "max_height").getD .none
  if truthy w && truthy h then
    let tmp := "aspect=" ++ pyStrOf w ++ ":" ++ pyStrOf h
    match safe.lookup "aspect_filters" with
    | some (.str f) => safe.set "aspect_filters" (.str (tmp ++ "," ++ f))
    | _ => safe.set "aspect_filters" (.str tmp)
  else safe

def theoraDescr : VideoDescr :=
  { codec_name := "theora", ffmpeg_codec_name := "libtheora",
    extra := [("quality", .int)], specific_opts := id, specific_list := theoraSpecific }

def h264Descr : VideoDescr :=
  { codec_name := "h264", ffmpeg_codec_name := "libx264",
    extra := [("preset", .str), ("quality", .int), ("profile", .str), ("tune", .str),
              ("level", .str), ("max_reference_frames", .int), ("max_rate", .str),
              ("max_frames_between_keyframes", .int)],
    specific_opts := id, specific_list := h264Specific }

def divxDescr : VideoDescr :=
  { codec_name := "divx", ffmpeg_codec_name := "mpeg4",
    extra := [], specific_opts := id, specific_list := fun _ => [] }

def vp8Descr : VideoDescr :=
  { codec_name := "vp8", ffmpeg_codec_name := "libvpx",
    extra := [], specific_opts := id, specific_list := fun _ => [] }

def h263Descr : VideoDescr :=
  { codec_name := "h263", ffmpeg_codec_name := "h263",
    extra := [], specific_opts := id, specific_list := fun _ => [] }

def flvDescr : VideoDescr :=
  { codec_name := "flv", ffmpeg_codec_name := "flv",
    extra := [], specific_opts := id, specific_list := fun _ => [] }

def mpeg1Descr : VideoDescr :=
  { codec_name := "mpeg1", ffmpeg_codec_name := "mpeg1video",
    extra := [], specific_opts := mpegSpecificOpts, specific_list := fun _ => [] }

def mpeg2Descr : VideoDescr :=
  { codec_name := "mpeg2", ffmpeg_codec_name := "mpeg2video",
    extra := [], specific_opts := mpegSpecificOpts, specific_list := fun _ => [] }

/-- The concrete `VideoCodec` subclasses of `video_codec_list` (lines
720–724), in source order. -/
def videoDescrList : List VideoDescr :=
  [theoraDescr, h264Descr, divxDescr, vp8Descr, h263Descr, flvDescr, mpeg1Descr, mpeg2Descr]

/-! ## Null and copy codecs (lines 394–453) -/

/-- `AudioNullCodec.parse_options`. -/
def audioNullParse (_opt : PyDict) : Except PyErr (List PyValue) := .ok [S "-an"]

/-- `VideoNullCodec.parse_options`. -/
def videoNullParse (_opt : PyDict) : Except PyErr (List PyValue) := .ok [S "-vn"]

/-- `SubtitleNullCodec.parse_options`. -/
def subtitleNullParse (_opt : PyDict) : Except PyErr (List PyValue) := .ok [S "-sn"]

/-- `AudioCopyCodec.parse_options`. -/
def audioCopyParse (_opt : PyDict) : Except PyErr (List PyValue) := .ok [S "-acodec", S "copy"]

/-- `VideoCopyCodec.parse_options`. -/
def videoCopyParse (_opt : PyDict) : Except PyErr (List PyValue) := .ok [S "-vcodec", S "copy"]

/-- `SubtitleCopyCodec.parse_options`. -/
def subtitleCopyParse (_opt : PyDict) : Except PyErr (List PyValue) := .ok [S "-scodec", S "copy"]

/-! ## Registries and the Converter facade (`__init__.py` lines 21–140) -/

/-- The audio registry built in `Converter.__init__` (lines 33–35): maps
each class's `codec_name` — `None` for the null codec — to its
`parse_options`.  A key of any other value is simply not in the dict. -/
def audioCodecLookup : PyValue → Option (PyDict → Except PyErr (List PyValue))
  | PyValue.none => some audioNullParse
  | .str "copy" => some audioCopyParse
  | .str "vorbis" => some (audioParseOptions vorbisDescr)
  | .str "aac" => some (audioParseOptions aacDescr)
  | .str "mp3" => some (audioParseOptions mp3Descr)
  | .str "mp2" => some (audioParseOptions mp2Descr)
  | .str "libfdk_aac" => some (audioParseOptions fdkAacDescr)
  | .str "ac3" => some (audioParseOptions ac3Descr)
  | .str "dts" => some (audioParseOptions dtsDescr)
  | .str "flac" => some (audioParseOptions flacDescr)
  | _ => Option.none

/-- The video registry (lines 37–39). -/
def videoCodecLookup : PyValue → Option (PyDict → Except PyErr (List PyValue))
  | PyValue.none => some videoNullParse
  | .str "copy" => some videoCopyParse
  | .str "theora" => some (videoParseOptions theoraDescr)
  | .str "h264" => some (videoParseOptions h264Descr)
  | .str "divx" => some (videoParseOptions divxDescr)
  | .str "vp8" => some (videoParseOptions vp8Descr)
  | .str "h263" => some (videoParseOptions h263Descr)
  | .str "flv" => some (videoParseOptions flvDescr)
  | .str "mpeg1" => some (videoParseOptions mpeg1Descr)
  | .str "mpeg2" => some (videoParseOptions mpeg2Descr)
  | _ => Option.none

/-- The subtitle registry (lines 41–43). -/
def subtitleCodecLookup : PyValue → Option (PyDict → Except PyErr (List PyValue))
  | PyValue.none => some subtitleNullParse
  | .str "copy" => some subtitleCopyParse
  | .str "mov_text" => some (subtitleParseOptions movTextDescr)
  | .str "ass" => some (subtitleParseOptions ssaDescr)
  | .str "subrip" => some (subtitleParseOptions subRipDescr)
  | .str "dvbsub" => some (subtitleParseOptions dvbSubDescr)
  | .str "dvdsub" => some (subtitleParseOptions dvdSubDescr)
  | _ => Option.none

/-- Modelled from the spec: the format registry and the format descriptors
live in `converter/formats.py`, which is not among the sources here.  Per
spec §4.2 a format descriptor's `parse` produces `['-f',
engine_format_name]` (its name-match precondition holds trivially when
called through the registry), and per the spec's examples the registry
knows at least the names `ogg`, `mp4` and `mkv`, with `-f mp4` emitted for
`mp4`. -/
def formatLookup : PyValue → Option (PyDict → Except PyErr (List PyValue))
  | .str "ogg" => some (fun _ => .ok [S "-f", S "ogg"])
  | .str "mp4" => some (fun _ => .ok [S "-f", S "mp4"])
  | .str "mkv" => some (fun _ => .ok [S "-f", S "mkv"])
  | _ => Option.none

/-- Modelled from the spec: `parse_time` lives in `converter/ffmpeg.py`,
which is not among the sources here.  Per spec §4.2 it renders a start or
duration value into the engine's textual time form; we model it as the
textual form of the value.  (No claim depends on its exact output.) -/
def parse_time (v : PyValue) : String := pyStrOf v

/-- The trailing two-pass fragment of `Converter.parse_options` (lines
135–138). -/
def passFrag : Option Int → List PyValue
  | some 1 => [S "-pass", S "1"]
  | some 2 => [S "-pass", S "2"]
  | _ => []

/-- `Converter.parse_options` (lines 49–133) up to, but not including, the
trailing `-pass` fragment: request-shape validation, registry lookups,
per-stream `parse_options` delegation, and the
audio + video + subtitle + format concatenation.  `twopass` enters only
through the `'audio' not in opt or twopass == 1` test on line 71 (pass 1
substitutes the null audio codec). -/
def converterBase (opt : PyValue) (twopass : Option Int) : Except PyErr (List PyValue) :=
  match opt with
  | .dict d => do
    let f ← match PyDict.lookup d "format" with
      | some fv => Except.ok fv
      | Option.none => Except.error (.converterError "Format not specified")
    let fmtParse ← match formatLookup f with
      | some p => Except.ok p
      | Option.none => Except.error (.converterError ("Requested unknown format: " ++ pyStrOf f))
    let format_options ← fmtParse d
    let _ ← if (PyDict.lookup d "audio").isNone && (PyDict.lookup d "video").isNone then
        Except.error (PyErr.converterError "Neither audio nor video streams requested")
      else Except.ok ()
    let opt_audio ← if (PyDict.lookup d "audio").isNone || twopass == some 1 then
        Except.ok [("codec", PyValue.none)]
      else match PyDict.lookup d "audio" with
        | some (.dict da) =>
          if (PyDict.lookup da "codec").isSome then Except.ok da
          else Except.error (.converterError "Invalid audio codec specification")
        | _ => Except.error (.converterError "Invalid audio codec specification")
    let ca := (PyDict.lookup opt_audio "codec").getD PyValue.none
    let audioParse ← match audioCodecLookup ca with
      | some p => Except.ok p
      | Option.none =>
        Except.error (.converterError ("Requested unknown audio codec " ++ pyStrOf ca))
    let audio_options ← audioParse opt_audio
    let opt_video ← if (PyDict.lookup d "video").isNone then
        Except.ok [("codec", PyValue.none)]
      else match PyDict.lookup d "video" with
        | some (.dict dv) =>
          if (PyDict.lookup dv "codec").isSome then Except.ok dv
          else Except.error (.converterError "Invalid video codec specification")
        | _ => Except.error (.converterError "Invalid video codec specification")
    let cv := (PyDict.lookup opt_video "codec").getD PyValue.none
    let videoParse ← match videoCodecLookup cv with
      | some p => Except.ok p
      | Option.none =>
        Except.error (.converterError ("Requested unknown video codec " ++ pyStrOf cv))
    let video_options ← videoParse opt_video
    let opt_subtitle ← if (PyDict.lookup d "subtitle").isNone then
        Except.ok [("codec", PyValue.none)]
      else match PyDict.lookup d "subtitle" with
        | some (.dict ds) =>
          if (PyDict.lookup ds "codec").isSome then Except.ok ds
          else Except.error (.converterError "Invalid subtitle codec specification")
        | _ => Except.error (.converterError "Invalid subtitle codec specification")
    let cs := (PyDict.lookup opt_subtitle "codec").getD PyValue.none
    let subtitleParse ← match subtitleCodecLookup cs with
      | some p => Except.ok p
      | Option.none =>
        Except.error (.converterError ("Requested unknown subtitle codec " ++ pyStrOf cs))
    let subtitle_options ← subtitleParse opt_subtitle
    let format_options ← match PyDict.lookup d "map" with
      | some (.int m) => Except.ok (format_options ++ [S "-map", S (intRepr m)])
      | some _ => Except.error (.converterError "map needs to be int")
      | Option.none => Except.ok format_options
    let format_options := match PyDict.lookup d "start" with
      | some v => format_options ++ [S "-ss", S (parse_time v)]
      | Option.none => format_options
    let format_options := match PyDict.lookup d "duration" with
      | some v => format_options ++ [S "-t", S (parse_time v)]
      | Option.none => format_options
    .ok (audio_options ++ video_options ++ subtitle_options ++ format_options)
  | _ => .error (.converterError "Invalid output specification")

/-- `Converter.parse_options` (lines 49–140): the aggregated option list
with the `-pass <n>` fragment appended for two-pass builds. -/
def converterParseOptions (opt : PyValue) (twopass : Option Int) :
    Except PyErr (List PyValue) :=
  (converterBase opt twopass).map (fun l => l ++ passFrag twopass)

/-! ## Supporting lemmas -/

theorem S_inj {a b : String} : S a = S b ↔ a = b := by
  simp [S]

theorem natDigits_isDigit (fuel : Nat) : ∀ (n : Nat), ∀ c ∈ natDigits fuel n, c.isDigit = true := by
  induction fuel with
  | zero => intro n c hc; simp [natDigits] at hc
  | succ fuel ih =>
    intro n c hc
    unfold natDigits at hc
    by_cases h : n = 0
    · simp [h] at hc
    · rw [if_neg h] at hc
      rcases List.mem_append.mp hc with h1 | h2
      · exact ih _ c h1
      · have hc' : c = Char.ofNat (48 + n % 10) := by simpa using h2
        subst hc'
        have hm : n % 10 < 10 := Nat.mod_lt _ (by omega)
        generalize hg : n % 10 = m at hm
        interval_cases m <;> decide

theorem natRepr_ne_ab (n : Nat) : natRepr n ≠ "-ab" := by
  unfold natRepr
  by_cases h : n = 0
  · rw [if_pos h]; decide
  · rw [if_neg h]
    intro hcontra
    have hd : natDigits n n = ['-', 'a', 'b'] := by
      have := congrArg String.data hcontra
      simpa using this
    have hmem : ('-' : Char) ∈ natDigits n n := by rw [hd]; simp
    have := natDigits_isDigit n n '-' hmem
    exact absurd this (by decide)

theorem intRepr_nonneg_ne_ab {n : Int} (h : 0 ≤ n) : intRepr n ≠ "-ab" := by
  unfold intRepr
  rw [if_neg (by omega)]
  exact natRepr_ne_ab _

namespace PyDict

theorem lookup_mem {d : PyDict} {k : String} {v : PyValue} (h : d.lookup k = some v) :
    (k, v) ∈ d := by
  induction d with
  | nil => simp [lookup] at h
  | cons kv rest ih =>
    obtain ⟨k0, v0⟩ := kv
    rw [lookup] at h
    by_cases hk : k0 = k
    · rw [if_pos hk] at h
      subst hk
      cases h
      exact List.mem_cons_self _ _
    · rw [if_neg hk] at h
      exact List.mem_cons_of_mem _ (ih h)

theorem lookup_eq_none {d : PyDict} {k : String} (h : k ∉ d.map Prod.fst) :
    d.lookup k = Option.none := by
  induction d with
  | nil => rfl
  | cons kv rest ih =>
    obtain ⟨k0, v0⟩ := kv
    rw [lookup]
    simp only [List.map_cons, List.mem_cons] at h
    push_neg at h
    rw [if_neg (fun hc => h.1 hc.symm)]
    exact ih h.2

theorem eraseKey_cons (k0 : String) (v0 : PyValue) (rest : PyDict) (k : String) :
    eraseKey ((k0, v0) :: rest) k =
      if k0 = k then eraseKey rest k else (k0, v0) :: eraseKey rest k := by
  unfold eraseKey
  rw [List.filter_cons]
  by_cases h : k0 = k
  · simp [h]
  · simp [h]

theorem lookup_eraseKey_self (d : PyDict) (k : String) :
    (eraseKey d k).lookup k = Option.none := by
  induction d with
  | nil => rfl
  | cons kv rest ih =>
    obtain ⟨k0, v0⟩ := kv
    rw [eraseKey_cons]
    by_cases hk : k0 = k
    · rw [if_pos hk]
      exact ih
    · rw [if_neg hk, lookup, if_neg hk]
      exact ih

theorem lookup_eraseKey_ne (d : PyDict) {k k' : String} (h : k' ≠ k) :
    (eraseKey d k).lookup k' = d.lookup k' := by
  induction d with
  | nil => rfl
  | cons kv rest ih =>
    obtain ⟨k0, v0⟩ := kv
    rw [eraseKey_cons]
    by_cases hk : k0 = k
    · subst hk
      rw [if_pos rfl, ih, lookup, if_neg (fun hc => h hc.symm)]
    · rw [if_neg hk, lookup, lookup]
      by_cases hk' : k0 = k'
      · rw [if_pos hk', if_pos hk']
      · rw [if_neg hk', if_neg hk']
        exact ih

theorem mem_eraseKey {d : PyDict} {k : String} {kv : String × PyValue}
    (h : kv ∈ eraseKey d k) : kv ∈ d :=
  List.mem_of_mem_filter h

end PyDict

theorem keys_safe_options {enc : List (String × PyType)} {opts : PyDict} {k : String}
    (h : k ∈ (safe_options enc opts).map Prod.fst) : k ∈ opts.map Prod.fst := by
  simp only [List.mem_map] at h ⊢
  obtain ⟨⟨k1, v1⟩, hmem, hk⟩ := h
  obtain ⟨⟨k0, v0⟩, hm0, hf⟩ := List.mem_filterMap.mp hmem
  rcases Option.bind_eq_some.mp hf with ⟨t, _, hmap⟩
  rcases Option.map_eq_some'.mp hmap with ⟨w, _, hkv⟩
  cases hkv
  exact ⟨(k0, v0), hm0, hk⟩

theorem mem_safe_options {enc : List (String × PyType)} {opts : PyDict} {k : String}
    {v : PyValue} (h : (k, v) ∈ safe_options enc opts) :
    ∃ t v0, enc.lookup k = some t ∧ (k, v0) ∈ opts ∧ coerce t v0 = some v := by
  obtain ⟨⟨k0, v0⟩, hm0, hf⟩ := List.mem_filterMap.mp h
  rcases Option.bind_eq_some.mp hf with ⟨t, ht, hmap⟩
  rcases Option.map_eq_some'.mp hmap with ⟨w, hw, hkv⟩
  cases hkv
  exact ⟨t, v0, ht, hm0, hw⟩

theorem coerce_hasType {t : PyType} {v0 v : PyValue} (h : coerce t v0 = some v) :
    hasType v t = true := by
  cases t <;> cases v0 <;> simp only [coerce] at h
  all_goals first
    | (cases h; rfl)
    | (rcases Option.map_eq_some'.mp h with ⟨n, _, rfl⟩; rfl)
    | simp at h

theorem lookup_safe_options {enc : List (String × PyType)} {opts : PyDict}
    (hnd : PyDict.NodupKeys opts) (k : String) :
    (safe_options enc opts).lookup k =
      (opts.lookup k).bind fun v => (enc.lookup k).bind fun t => coerce t v := by
  induction opts with
  | nil => rfl
  | cons kv rest ih =>
    obtain ⟨k0, v0⟩ := kv
    have hnd' : k0 ∉ rest.map Prod.fst ∧ PyDict.NodupKeys rest := by
      unfold PyDict.NodupKeys at hnd
      simp only [List.map_cons, List.nodup_cons] at hnd
      exact hnd
    unfold safe_options at ih ⊢
    rw [List.filterMap_cons]
    by_cases hk : k0 = k
    · subst hk
      rw [PyDict.lookup, if_pos rfl]
      cases henc : enc.lookup k0 with
      | none =>
        simp only [henc, Option.none_bind, Option.some_bind]
        have hnotk : k0 ∉ (safe_options enc rest).map Prod.fst :=
          fun hc => hnd'.1 (keys_safe_options hc)
        unfold safe_options at hnotk
        exact PyDict.lookup_eq_none hnotk
      | some t =>
        cases hco : coerce t v0 with
        | none =>
          simp only [henc, hco, Option.some_bind, Option.map_none']
          have hnotk : k0 ∉ (safe_options enc rest).map Prod.fst :=
            fun hc => hnd'.1 (keys_safe_options hc)
          unfold safe_options at hnotk
          exact PyDict.lookup_eq_none hnotk
        | some w =>
          simp only [henc, hco, Option.some_bind, Option.map_some']
          rw [PyDict.lookup, if_pos rfl]
    · rw [PyDict.lookup, if_neg hk]
      cases henc : enc.lookup k0 with
      | none =>
        simp only [henc, Option.none_bind]
        exact ih hnd'.2
      | some t =>
        cases hco : coerce t v0 with
        | none =>
          simp only [henc, hco, Option.some_bind, Option.map_none']
          exact ih hnd'.2
        | some w =>
          simp only [henc, hco, Option.some_bind, Option.map_some']
          rw [PyDict.lookup, if_neg hk]
          exact ih hnd'.2

theorem rangeFilter_lookup_ne {d : PyDict} {k k' : String} {lo hi : Int} (h : k' ≠ k) :
    (rangeFilter d k lo hi).lookup k' = d.lookup k' := by
  unfold rangeFilter
  split
  · split
    · exact PyDict.lookup_eraseKey_ne d h
    · rfl
  · rfl

theorem rangeFilter_lookup_int {d : PyDict} {k : String} {lo hi n : Int}
    (hl : d.lookup k = some (.int n)) :
    (rangeFilter d k lo hi).lookup k =
      if n < lo ∨ hi < n then Option.none else some (.int n) := by
  unfold rangeFilter
  rw [hl]
  dsimp only
  by_cases hc : n < lo ∨ hi < n
  · rw [if_pos hc, if_pos hc]
    exact PyDict.lookup_eraseKey_self d k
  · rw [if_neg hc, if_neg hc]
    exact hl

theorem mem_rangeFilter {d : PyDict} {k : String} {lo hi : Int} {kv : String × PyValue}
    (h : kv ∈ rangeFilter d k lo hi) : kv ∈ d := by
  unfold rangeFilter at h
  split at h
  · split at h
    · exact PyDict.mem_eraseKey h
    · exact h
  · exact h

/-! ## Claim theorems -/

/-- C1: the claim says that for positive source and max dimensions, `Fit`
(and `ShrinkToFit` when the source exceeds a bound) resolves to a size not
exceeding `(max_width, max_height)`.  The code violates this: with a
1600×512 source and 640×256 maxima, `sh/sw` floor-divides to `0`, which is
compared against `max_height` (not against a ratio), so the height branch
is taken and the resolved width is `int(1600 * 256/512) = 800 > 640`. -/
theorem fit_exceeds_max_width :
    aspect_corrections (some 1600) (some 512) (some 640) (some 256) "Fit" =
      .ok (some 800, some 256, Option.none) ∧
    aspect_corrections (some 1600) (some 512) (some 640) (some 256) "ShrinkToFit" =
      .ok (some 800, some 256, Option.none) ∧
    (640 : Int) < 800 := by
  refine ⟨?_, ?_, by norm_num⟩
  · show aspectCore 1600 512 640 256 "Fit" = .ok (some 800, some 256, Option.none)
    have hfd : Int.fdiv 512 1600 = 0 := rfl
    unfold aspectCore
    rw [hfd]
    norm_num [pyInt]
  · show aspectCore 1600 512 640 256 "ShrinkToFit" = .ok (some 800, some 256, Option.none)
    have hfd : Int.fdiv 512 1600 = 0 := rfl
    unfold aspectCore
    rw [hfd]
    norm_num [pyInt]
    intro _
    rw [if_neg (by decide), if_neg (by decide), if_neg (by decide)]

/-- C3: the claim says `ShrinkToFill` with `¬(sh < max_height ∨ sw <
max_width)` is an identity passthrough that raises no error.  The code's
non-shrinking branch returns `int(sw*factor)` where `factor` was never
assigned on that path, so it raises `NameError` instead (1920×1080 source,
640×480 maxima: `1080 < 480` and `1920 < 640` are both false). -/
theorem shrinkToFill_passthrough_raises :
    aspect_corrections (some 1920) (some 1080) (some 640) (some 480) "ShrinkToFill" =
      .error (.nameError "factor") := by
  rfl

/-- C2: the claim says every accepted video option mapping gets its resolved
width/height corrected to even values and emitted in `-s <w>x<h>`.  In the
source, `_div_by_2` is defined without a `self` parameter, so the call
`self._div_by_2(w)` on line 342 raises `TypeError` on every invocation:
even this fully valid h264 mapping produces no `-s` token at all. -/
theorem video_parse_always_type_error :
    videoParseOptions h264Descr
      [("codec", PyValue.str "h264"), ("src_width", PyValue.int 640),
       ("src_height", PyValue.int 480), ("max_width", PyValue.int 100),
       ("max_height", PyValue.int 100)] =
      .error (.typeError "_div_by_2() takes exactly 1 argument (2 given)") := by
  rfl

/-- C8: the claim says every element of a returned argument fragment is a
string.  The Vorbis quality option is emitted *raw*: the fragment for
`{codec: vorbis, quality: 5}` contains the integer `5` (not `'5'`) right
after `-qscale:a`. -/
theorem vorbis_fragment_contains_raw_int :
    audioParseOptions vorbisDescr
      [("codec", PyValue.str "vorbis"), ("quality", PyValue.int 5)] =
      .ok [S "-acodec", S "libvorbis", S "-qscale:a", PyValue.int 5] ∧
    PyValue.int 5 ∈ [S "-acodec", S "libvorbis", S "-qscale:a", PyValue.int 5] ∧
    hasType (PyValue.int 5) PyType.str = false := by
  refine ⟨by rfl, by simp, by rfl⟩

/-- C6: a request with a format but neither audio nor video raises the
invalid-specification `ConverterError`; a request with only an audio
section succeeds and its argument list contains `-vn` (the null video
codec's fragment). -/
theorem no_streams_and_audio_only :
    converterParseOptions (PyValue.dict [("format", PyValue.str "ogg")]) Option.none =
      .error (.converterError "Neither audio nor video streams requested") ∧
    converterParseOptions
      (PyValue.dict [("format", PyValue.str "ogg"),
        ("audio", PyValue.dict [("codec", PyValue.str "vorbis"), ("quality", PyValue.int 5)])])
      Option.none =
      .ok [S "-acodec", S "libvorbis", S "-qscale:a", PyValue.int 5,
           S "-vn", S "-sn", S "-f", S "ogg"] ∧
    S "-vn" ∈ [S "-acodec", S "libvorbis", S "-qscale:a", PyValue.int 5,
               S "-vn", S "-sn", S "-f", S "ogg"] := by
  refine ⟨by rfl, by rfl, by simp⟩

/-- C5: `safe_options` only ever returns keys present in the schema, and
every returned value is an instance of the schema-declared kind.  (It is a
total function — the bare `except` swallows every coercion failure by
dropping the key, so no error can escape.) -/
theorem safe_options_sound (enc : List (String × PyType)) (opts : PyDict)
    (k : String) (v : PyValue) (h : (k, v) ∈ safe_options enc opts) :
    ∃ t, enc.lookup k = some t ∧ hasType v t = true := by
  obtain ⟨t, v0, ht, _, hco⟩ := mem_safe_options h
  exact ⟨t, ht, coerce_hasType hco⟩

/-- Witness for C5: the untyped `'12'` under `bitrate` survives as the
integer 12, whose kind is the schema-declared `int`. -/
theorem safe_options_sound_witness :
    ∃ t, audio_encoder_options.lookup "bitrate" = some t ∧
      hasType (PyValue.int 12) t = true :=
  safe_options_sound audio_encoder_options
    [("bitrate", PyValue.str "12"), ("junk", PyValue.int 3)] "bitrate" (PyValue.int 12)
    (by exact List.mem_singleton.mpr rfl)

/-- C10: for the concrete subtitle codecs, a successful parse returns
exactly `['-scodec', <engine name>]`: the sanitized language/forced/default
options contribute no token. -/
theorem subtitle_parse_exact (d : SubDescr) (_hd : d ∈ subDescrList) (opt : PyDict)
    (l : List PyValue) (h : subtitleParseOptions d opt = .ok l) :
    l = [S "-scodec", S d.ffmpeg_codec_name] := by
  unfold subtitleParseOptions at h
  cases hck : checkCodec d.codec_name opt with
  | error e =>
    rw [hck] at h
    exact absurd h (fun hh => Except.noConfusion hh)
  | ok u =>
    rw [hck] at h
    exact (Except.ok.inj h).symm

/-- Witness for C10: `mov_text` with a language option parses to exactly
`['-scodec', 'mov_text']`. -/
theorem subtitle_parse_exact_witness :
    [S "-scodec", S "mov_text"] = [S "-scodec", S movTextDescr.ffmpeg_codec_name] :=
  subtitle_parse_exact movTextDescr (by simp [subDescrList])
    [("codec", PyValue.str "mov_text"), ("language", PyValue.str "eng"),
     ("forced", PyValue.int 1)]
    [S "-scodec", S "mov_text"] (by rfl)

/-- C4 counterexample: for a request *with* an audio section, the pass-1 and
pass-2 argument lists differ in more than the trailing `-pass` token — pass
1 replaces the whole audio fragment with `-an` (line 71's
`'audio' not in opt or twopass == 1` substitutes the null audio codec). -/
theorem twopass_audio_counterexample :
    converterParseOptions
      (PyValue.dict [("format", PyValue.str "ogg"),
        ("audio", PyValue.dict [("codec", PyValue.str "vorbis")])]) (some 1) =
      .ok [S "-an", S "-vn", S "-sn", S "-f", S "ogg", S "-pass", S "1"] ∧
    converterParseOptions
      (PyValue.dict [("format", PyValue.str "ogg"),
        ("audio", PyValue.dict [("codec", PyValue.str "vorbis")])]) (some 2) =
      .ok [S "-acodec", S "libvorbis", S "-vn", S "-sn", S "-f", S "ogg", S "-pass", S "2"] ∧
    ([S "-an", S "-vn", S "-sn", S "-f", S "ogg", S "-pass", S "1"] : List PyValue).dropLast.dropLast =
      [S "-an", S "-vn", S "-sn", S "-f", S "ogg"] ∧
    ([S "-acodec", S "libvorbis", S "-vn", S "-sn", S "-f", S "ogg", S "-pass", S "2"] : List PyValue).dropLast.dropLast =
      [S "-acodec", S "libvorbis", S "-vn", S "-sn", S "-f", S "ogg"] ∧
    ([S "-an", S "-vn", S "-sn", S "-f", S "ogg"] : List PyValue) ≠
      [S "-acodec", S "libvorbis", S "-vn", S "-sn", S "-f", S "ogg"] := by
  refine ⟨by rfl, by rfl, by rfl, by rfl, by simp [S]⟩

/-- C4 amended: for a request *without* an audio section — where pass 1's
null-audio substitution coincides with the ordinary audio handling — the
pass-1 and pass-2 argument lists are identical except for the trailing
`-pass 1` / `-pass 2` tokens. -/
theorem twopass_differs_only_in_pass_token (d : PyDict) (l1 : List PyValue)
    (hna : d.lookup "audio" = Option.none)
    (h1 : converterParseOptions (.dict d) (some 1) = .ok l1) :
    ∃ l, l1 = l ++ [S "-pass", S "1"] ∧
      converterParseOptions (.dict d) (some 2) = .ok (l ++ [S "-pass", S "2"]) := by
  have hb : converterBase (.dict d) (some 1) = converterBase (.dict d) (some 2) := by
    unfold converterBase
    dsimp only
    rw [hna]
    simp only [Option.isNone_none, Bool.true_or]
  unfold converterParseOptions at h1 ⊢
  rw [hb] at h1
  cases hbase : converterBase (.dict d) (some 2) with
  | error e =>
    rw [hbase] at h1
    exact absurd h1 (fun hh => Except.noConfusion hh)
  | ok l =>
    rw [hbase] at h1
    exact ⟨l, (Except.ok.inj h1).symm, rfl⟩

/-- Witness for C4 (amended): a video-only `ogg` request, built for pass 1
and pass 2. -/
theorem twopass_differs_only_in_pass_token_witness :
    ∃ l, ([S "-an", S "-vn", S "-sn", S "-f", S "ogg", S "-pass", S "1"] : List PyValue) =
        l ++ [S "-pass", S "1"] ∧
      converterParseOptions
        (.dict [("format", PyValue.str "ogg"),
          ("video", PyValue.dict [("codec", PyValue.none)])]) (some 2) =
        .ok (l ++ [S "-pass", S "2"]) :=
  twopass_differs_only_in_pass_token
    [("format", PyValue.str "ogg"), ("video", PyValue.dict [("codec", PyValue.none)])]
    [S "-an", S "-vn", S "-sn", S "-f", S "ogg", S "-pass", S "1"]
    (by rfl) (by rfl)

/-- C9 counterexample: with `autorotate=True` and `src_rotate=0`,
`VideoCodec.parse_options` does *not* raise the claimed `KeyError` — the
`TypeError` from the `self._div_by_2(w)` arity defect (line 342) fires
first, before the rotation-filter lookup on line 384 is ever reached. -/
theorem autorotate_keyerror_counterexample :
    videoParseOptions h264Descr
      [("codec", PyValue.str "h264"), ("autorotate", PyValue.bool true),
       ("src_rotate", PyValue.int 0)] =
      .error (.typeError "_div_by_2() takes exactly 1 argument (2 given)") ∧
    videoParseOptions h264Descr
      [("codec", PyValue.str "h264"), ("autorotate", PyValue.bool true),
       ("src_rotate", PyValue.int 0)] ≠
      .error (.keyError 0) := by
  refine ⟨by rfl, fun h => ?_⟩
  rw [show videoParseOptions h264Descr
      [("codec", PyValue.str "h264"), ("autorotate", PyValue.bool true),
       ("src_rotate", PyValue.int 0)] =
      .error (.typeError "_div_by_2() takes exactly 1 argument (2 given)") from rfl] at h
  exact absurd h (by simp)

/-- C9 amended: the transpose-filter table of `_autorotate` is indeed total
only on the keys 90, 180 and 270 — any other `src_rotate` value raises
`KeyError` from the table lookup — but `VideoCodec.parse_options` never
reaches that lookup: the `TypeError` raised by the `self._div_by_2(w)`
arity defect preempts it on every code path. -/
theorem autorotate_table_partial (r : Int) (h90 : r ≠ 90) (h180 : r ≠ 180)
    (h270 : r ≠ 270) :
    autorotate_filters r = .error (.keyError r) ∧
    videoParseOptions h264Descr
      [("codec", PyValue.str "h264"), ("autorotate", PyValue.bool true),
       ("src_rotate", PyValue.int r)] =
      .error (.typeError "_div_by_2() takes exactly 1 argument (2 given)") := by
  constructor
  · unfold autorotate_filters
    rw [if_neg h90, if_neg h180, if_neg h270]
  · rfl

/-- Witness for C9 (amended), at `src_rotate = 0`. -/
theorem autorotate_table_partial_witness :
    autorotate_filters 0 = .error (.keyError 0) ∧
    videoParseOptions h264Descr
      [("codec", PyValue.str "h264"), ("autorotate", PyValue.bool true),
       ("src_rotate", PyValue.int 0)] =
      .error (.typeError "_div_by_2() takes exactly 1 argument (2 given)") :=
  autorotate_table_partial 0 (by decide) (by decide) (by decide)

theorem hasType_int {v : PyValue} (h : hasType v PyType.int = true) :
    ∃ c, v = PyValue.int c := by
  cases v with
  | int n => exact ⟨n, rfl⟩
  | str s => exact absurd h (by simp [hasType])
  | bool b => exact absurd h (by simp [hasType])
  | none => exact absurd h (by simp [hasType])
  | dict d => exact absurd h (by simp [hasType])

theorem rangeFilter_lookup_some {d : PyDict} {k : String} {lo hi : Int} {v : PyValue}
    (h : (rangeFilter d k lo hi).lookup k = some v) :
    d.lookup k = some v ∧ ∀ m : Int, v = PyValue.int m → lo ≤ m ∧ m ≤ hi := by
  unfold rangeFilter at h
  split at h
  · rename_i n heq
    split at h
    · rw [PyDict.lookup_eraseKey_self] at h
      exact absurd h (by simp)
    · rename_i hcond
      refine ⟨h, fun m hm => ?_⟩
      have hv : v = PyValue.int n := by
        have := heq.symm.trans h
        exact (Option.some.inj this).symm
      rw [hv] at hm
      have : n = m := by
        have := PyValue.int.inj hm
        exact this
      subst this
      omega
  · rename_i hno
    refine ⟨h, fun m hm => ?_⟩
    subst hm
    exact absurd h (by intro hc; exact hno m hc)

theorem audioTok_not_mem {safe : PyDict} {k flag : String} (hflag : S "-ab" ≠ S flag)
    (hval : ∀ v, safe.lookup k = some v → ∃ c : Int, v = PyValue.int c ∧ 0 ≤ c) :
    S "-ab" ∉ audioTok safe k flag := by
  unfold audioTok
  cases hc : safe.lookup k with
  | none => simp
  | some v =>
    obtain ⟨c, rfl, hc0⟩ := hval v hc
    intro hmem
    simp only [List.mem_cons, List.not_mem_nil, or_false] at hmem
    rcases hmem with h1 | h2
    · exact hflag h1
    · have hstr : "-ab" = pyStrOf (PyValue.int c) := S_inj.mp h2
      exact (intRepr_nonneg_ne_ab hc0) hstr.symm

theorem audioSafe_typing {d : AudioDescr} {opt : PyDict} {k : String} {v : PyValue}
    (h : (k, v) ∈ audioSafe d opt) :
    ∃ t, (audio_encoder_options ++ d.extra).lookup k = some t ∧ hasType v t = true := by
  unfold audioSafe at h
  obtain ⟨t, v0, ht, _, hco⟩ :=
    mem_safe_options (mem_rangeFilter (mem_rangeFilter (mem_rangeFilter h)))
  exact ⟨t, ht, coerce_hasType hco⟩

theorem audioSafe_lookup_channels {d : AudioDescr} {opt : PyDict} {v : PyValue}
    (h : (audioSafe d opt).lookup "channels" = some v) :
    ∃ c : Int, v = PyValue.int c ∧ 1 ≤ c ∧ c ≤ 12 := by
  unfold audioSafe at h
  rw [rangeFilter_lookup_ne (by decide), rangeFilter_lookup_ne (by decide)] at h
  obtain ⟨h0, hbnd⟩ := rangeFilter_lookup_some h
  obtain ⟨t, v0, ht, _, hco⟩ := mem_safe_options (PyDict.lookup_mem h0)
  have henc : (audio_encoder_options ++ d.extra).lookup "channels" = some PyType.int := rfl
  rw [henc] at ht
  have ht' := Option.some.inj ht
  subst ht'
  obtain ⟨c, rfl⟩ := hasType_int (coerce_hasType hco)
  exact ⟨c, rfl, hbnd c rfl⟩

theorem audioSafe_lookup_samplerate {d : AudioDescr} {opt : PyDict} {v : PyValue}
    (h : (audioSafe d opt).lookup "samplerate" = some v) :
    ∃ c : Int, v = PyValue.int c ∧ 1000 ≤ c ∧ c ≤ 50000 := by
  unfold audioSafe at h
  obtain ⟨h1, hbnd⟩ := rangeFilter_lookup_some h
  rw [rangeFilter_lookup_ne (by decide), rangeFilter_lookup_ne (by decide)] at h1
  obtain ⟨t, v0, ht, _, hco⟩ := mem_safe_options (PyDict.lookup_mem h1)
  have henc : (audio_encoder_options ++ d.extra).lookup "samplerate" = some PyType.int := rfl
  rw [henc] at ht
  have ht' := Option.some.inj ht
  subst ht'
  obtain ⟨c, rfl⟩ := hasType_int (coerce_hasType hco)
  exact ⟨c, rfl, hbnd c rfl⟩

theorem audioSafe_lookup_bitrate {d : AudioDescr} {opt : PyDict} {n : Int}
    (hnd : PyDict.NodupKeys opt)
    (hbr : opt.lookup "bitrate" = some (PyValue.int n)) :
    (audioSafe d opt).lookup "bitrate" =
      if n < 8 ∨ 512 < n then Option.none else some (PyValue.int n) := by
  unfold audioSafe
  rw [rangeFilter_lookup_ne (by decide)]
  have h0 : (safe_options (audio_encoder_options ++ d.extra) opt).lookup "bitrate" =
      some (PyValue.int n) := by
    rw [lookup_safe_options hnd, hbr]
    rfl
  have h1 : (rangeFilter (safe_options (audio_encoder_options ++ d.extra) opt)
      "channels" 1 12).lookup "bitrate" = some (PyValue.int n) := by
    rw [rangeFilter_lookup_ne (by decide), h0]
  exact rangeFilter_lookup_int h1

/-- C7: for every concrete audio codec and every option mapping carrying a
matching codec name and an integer bitrate `n`: if `n` is outside `[8, 512]`
the key is dropped entirely — the parse still succeeds and *no* `-ab` token
appears anywhere in the fragment (the value is never clipped to a bound) —
while if `n` is inside the range it is retained exactly and emitted as the
adjacent pair `-ab <n>k`. -/
theorem audio_bitrate_dropped_or_kept (d : AudioDescr) (hd : d ∈ audioDescrList)
    (opt : PyDict) (n : Int) (hnd : PyDict.NodupKeys opt)
    (hcodec : opt.lookup "codec" = some (PyValue.str d.codec_name))
    (hbr : opt.lookup "bitrate" = some (PyValue.int n)) :
    ((n < 8 ∨ 512 < n) → ∃ l, audioParseOptions d opt = .ok l ∧ S "-ab" ∉ l) ∧
    (8 ≤ n → n ≤ 512 →
      ∃ pre post, audioParseOptions d opt =
        .ok (pre ++ [S "-ab", S (pyStrOf (PyValue.int n) ++ "k")] ++ post)) := by
  have hck : checkCodec d.codec_name opt = .ok () := by
    unfold checkCodec
    rw [hcodec]
    dsimp only
    rw [if_pos rfl]
  have hparse : audioParseOptions d opt = .ok (audioFragments d opt) := by
    unfold audioParseOptions
    rw [hck]
    rfl
  have hbrk := audioSafe_lookup_bitrate (d := d) hnd hbr
  have hac : S "-ab" ∉ audioTok (audioSafe d opt) "channels" "-ac" := by
    refine audioTok_not_mem (by simp [S]) (fun v hv => ?_)
    obtain ⟨c, rfl, h1, _⟩ := audioSafe_lookup_channels hv
    exact ⟨c, rfl, by omega⟩
  have har : S "-ab" ∉ audioTok (audioSafe d opt) "samplerate" "-ar" := by
    refine audioTok_not_mem (by simp [S]) (fun v hv => ?_)
    obtain ⟨c, rfl, h1, _⟩ := audioSafe_lookup_samplerate hv
    exact ⟨c, rfl, by omega⟩
  have hsp : S "-ab" ∉ d.specific (audioSafe d opt) ∧ d.ffmpeg_codec_name ≠ "-ab" := by
    simp only [audioDescrList, List.mem_cons, List.not_mem_nil, or_false] at hd
    rcases hd with rfl | rfl | rfl | rfl | rfl | rfl | rfl | rfl
    · refine ⟨?_, by decide⟩
      show S "-ab" ∉ vorbisSpecific (audioSafe vorbisDescr opt)
      unfold vorbisSpecific
      cases hq : (audioSafe vorbisDescr opt).lookup "quality" with
      | none => simp
      | some v =>
        obtain ⟨t, ht, htyp⟩ := audioSafe_typing (PyDict.lookup_mem hq)
        have henc : (audio_encoder_options ++ vorbisDescr.extra).lookup "quality" =
            some PyType.int := by decide
        rw [henc] at ht
        have ht' := Option.some.inj ht
        subst ht'
        obtain ⟨c, rfl⟩ := hasType_int htyp
        simp [S]
    · refine ⟨?_, by decide⟩
      show S "-ab" ∉ [S "-strict", S "experimental"]
      simp [S]
    all_goals refine ⟨?_, by decide⟩
    all_goals show S "-ab" ∉ ([] : List PyValue)
    all_goals simp
  constructor
  · intro hout
    refine ⟨audioFragments d opt, hparse, ?_⟩
    unfold audioFragments
    have hab : audioTokK (audioSafe d opt) "bitrate" "-ab" = [] := by
      unfold audioTokK
      rw [hbrk, if_pos hout]
    rw [hab]
    intro hmem
    simp only [List.append_nil, List.mem_append] at hmem
    rcases hmem with ((h1 | h2) | h3) | h4
    · simp only [S, List.mem_cons, List.not_mem_nil, or_false, PyValue.str.injEq] at h1
      rcases h1 with ha | hb
      · exact absurd ha (by decide)
      · exact hsp.2 hb.symm
    · exact hac h2
    · exact har h3
    · exact hsp.1 h4
  · intro h8 h512
    refine ⟨[S "-acodec", S d.ffmpeg_codec_name] ++ audioTok (audioSafe d opt) "channels" "-ac",
            audioTok (audioSafe d opt) "samplerate" "-ar" ++ d.specific (audioSafe d opt), ?_⟩
    rw [hparse]
    congr 1
    unfold audioFragments
    have hab : audioTokK (audioSafe d opt) "bitrate" "-ab" =
        [S "-ab", S (pyStrOf (PyValue.int n) ++ "k")] := by
      unfold audioTokK
      rw [hbrk, if_neg (by omega)]
    rw [hab]
    simp [List.append_assoc]

/-- Witness for C7: `mp3` with `bitrate = 8` (the boundary value is kept and
emitted as `-ab 8k`), applied through the in-range half of the theorem. -/
theorem audio_bitrate_dropped_or_kept_witness :
    ∃ pre post, audioParseOptions mp3Descr
      [("codec", PyValue.str "mp3"), ("bitrate", PyValue.int 8)] =
      .ok (pre ++ [S "-ab", S (pyStrOf (PyValue.int 8) ++ "k")] ++ post) :=
  (audio_bitrate_dropped_or_kept mp3Descr
    (by simp [audioDescrList, mp3Descr])
    [("codec", PyValue.str "mp3"), ("bitrate", PyValue.int 8)] 8
    (by decide) (by rfl) (by rfl)).2 (by norm_num) (by norm_num)
